import Mathlib

/-!
Verification of the `starfield` VR demo (src/starfield/main.go).

The program is a single-threaded frame loop driving external libraries
(GLFW window, fizzle renderer, OpenVR runtime).  We embed it shallowly:

* every call the program makes into an external library is recorded as an
  event in a trace (`Event` for per-frame calls, `InitEvent` for setup);
* external library functions whose *results* the program consumes
  (matrix inversion `Inv`, layout conversion `Mat34ToMat4`, the runtime
  queries) are fields of an `Env` record: the claims under verification do
  not depend on their internals, only on how the program routes data
  through them;
* `float32`/`float64` values are modelled as rationals; `rand.Float64` is
  modelled by its contract, a stream of samples in `[0, 1)`;
* mutable fields of the `starfield` struct become a `State` record threaded
  through `handleInput` / `renderFrame` / `run`.
-/

namespace Starfield

/-- Model of `openvr.HmdMatrix34` (`[12]float32`, row-major 3x4), accessed
by flat index as in `pose.DeviceToAbsoluteTracking[9]` etc. -/
abbrev Mat34 := Fin 12 → ℚ

/-- Model of `mgl32.Mat4` (a 4x4 float32 matrix), indexed row/column. -/
abbrev Mat4 := Fin 4 → Fin 4 → ℚ

/-- Model of `mgl32.Vec3`. -/
abbrev Vec3 := Fin 3 → ℚ

/-- Go's zero value for `mgl32.Mat4`: the all-zero matrix (NOT identity). -/
def mat4Zero : Mat4 := fun _ _ => 0

/-- Go's zero value for `mgl32.Vec3`: the zero vector. -/
def vec3Zero : Vec3 := fun _ => 0

/-- Matrix product, as computed by `mgl32.Mat4.Mul4`. -/
def mul4 (a b : Mat4) : Mat4 := fun r c => ∑ k : Fin 4, a r k * b k c

/-- OpenVR constant `openvr.EyeLeft` (= `EVREye_Eye_Left` = 0). -/
def eyeLeftConst : ℕ := 0

/-- OpenVR constant `openvr.EyeRight` (= `EVREye_Eye_Right` = 1). -/
def eyeRightConst : ℕ := 1

/-- OpenVR constant `openvr.TrackedDeviceIndexHmd` (= 0). -/
def trackedDeviceIndexHmd : ℕ := 0

/-- OpenVR constant `openvr.PropTrackingSystemNameString` (= 1000). -/
def propTrackingSystemNameString : ℕ := 1000

/-- OpenVR constant `openvr.PropSerialNumberString` (= 1005). -/
def propSerialNumberString : ℕ := 1005

/-- OpenVR constant `openvr.TrackedPropSuccess` (= 0). -/
def trackedPropSuccess : ℕ := 0

/-- The pair of framebuffer/texture handles of one eye's offscreen target
(`fizzlevr.EyeFramebuffer`): multisampled render FBO, single-sample resolve
FBO, and the resolve color texture. -/
structure EyeFramebuffer where
  renderFramebuffer : ℕ
  resolveFramebuffer : ℕ
  resolveTexture : ℕ
  deriving DecidableEq, Repr

/-- The four per-eye matrices returned by `openvr.System.GetEyeTransforms`
(`openvr.EyeTransforms`): projections and position (view-offset) transforms. -/
structure EyeTransforms where
  projectionLeft : Mat4
  projectionRight : Mat4
  positionLeft : Mat4
  positionRight : Mat4

/-- A star: one `fizzle.Renderable` sphere with its world `Location`.
The shared material is identified by a handle. -/
structure Renderable where
  location : Vec3
  material : ℕ
  deriving DecidableEq

/-- The `FixedCamera` value type of main.go: a view matrix and a position. -/
structure FixedCamera where
  view : Mat4
  position : Vec3

/-- External library functions and runtime query results the program
consumes.  The claims do not depend on their internals, so they are
parameters of the model. -/
structure Env where
  /-- `openvr.Mat34ToMat4`: layout conversion done by the library. -/
  mat34ToMat4 : Mat34 → Mat4
  /-- `mgl32.Mat4.Inv`: matrix inversion done by the library. -/
  inv : Mat4 → Mat4
  /-- `vr.GetRecommendedRenderTargetSize()` result (width, height). -/
  recommendedSize : ℕ × ℕ
  /-- `vr.GetEyeTransforms(0.1, 30.0)` result. -/
  eyeTransforms : EyeTransforms
  /-- `fizzlevr.CreateStereoRenderTargets(w, h)` result (left, right). -/
  createStereoRenderTargets : ℕ → ℕ → EyeFramebuffer × EyeFramebuffer
  /-- `vr.GetStringTrackedDeviceProperty(device, property)` result
  (value, status). -/
  getStringProp : ℕ → ℕ → String × ℕ

/-- Star generation from `newStarfield` (main.go lines 95-107): 1000 stars,
coordinates sampled as `rand.Float64()*max - max/2` per axis with
max extents 10, consumed from the sample stream in source order
(x, y, z per star).  `material` models the shared `redMaterial` pointer. -/
def genStars (rand : ℕ → ℚ) : List Renderable :=
  let stars := 1000
  let maxX : ℚ := 10
  let maxY : ℚ := 10
  let maxZ : ℚ := 10
  (List.range stars).map fun i =>
    let x := rand (3 * i) * maxX - maxX / 2
    let y := rand (3 * i + 1) * maxY - maxY / 2
    let z := rand (3 * i + 2) * maxZ - maxZ / 2
    { location := ![x, y, z], material := 0 }

/-- OpenGL capabilities passed to `gl.Enable`/`gl.Disable` in main.go. -/
inductive Cap where
  | cullFace
  | multisample
  | depthTest
  deriving DecidableEq, Repr

/-- Framebuffer binding targets passed to `gl.BindFramebuffer` in main.go. -/
inductive FbTarget where
  | framebuffer
  | readFramebuffer
  | drawFramebuffer
  deriving DecidableEq, Repr

/-- One external call made during a frame.  Arguments record exactly the
data the program passes (matrix conversions to `int32` are identity on the
values in range and are dropped). -/
inductive Event where
  /-- `a.gl.Enable(cap)` -/
  | enable (cap : Cap)
  /-- `a.gl.Disable(cap)` -/
  | disable (cap : Cap)
  /-- `a.gl.ClearColor(r, g, b, a)` -/
  | clearColor (r g b a : ℚ)
  /-- `a.gl.BindFramebuffer(target, fb)` -/
  | bindFramebuffer (target : FbTarget) (fb : ℕ)
  /-- `a.gl.Viewport(x, y, w, h)` -/
  | viewport (x y w h : ℕ)
  /-- `a.gl.Clear(COLOR_BUFFER_BIT | DEPTH_BUFFER_BIT)` -/
  | clear
  /-- `a.gl.BlitFramebuffer(..., COLOR_BUFFER_BIT, LINEAR)` -/
  | blitFramebuffer (srcX0 srcY0 srcX1 srcY1 dstX0 dstY0 dstX1 dstY1 : ℕ)
  /-- `a.renderer.DrawRenderable(obj, binder, projection, view, camera)`;
  the program always passes `nil` for the binder (the per-draw material
  override), modelled as `none`. -/
  | drawRenderable (obj : Renderable) (binder : Option ℕ)
      (projection view : Mat4) (camera : FixedCamera)
  /-- `a.deviceRenderables.RenderDevices(a.vrCompositor, projection, view, camera)` -/
  | renderDevices (projection view : Mat4) (camera : FixedCamera)
  /-- `a.distortionLens.Render(w, h)` -/
  | distortionRender (w h : ℕ)
  /-- `a.vrCompositor.Submit(eye, texture)` -/
  | submit (eye : ℕ) (texture : ℕ)
  /-- `a.window.SwapBuffers()` -/
  | swapBuffers
  /-- `a.vrCompositor.WaitGetPoses(renderPoses)` -/
  | waitGetPoses (renderPoses : Bool)

/-- One external call made during setup (`newStarfield` / `newWindow`). -/
inductive InitEvent where
  /-- `newWindow(width, height, title)` -/
  | newWindow (width height : ℤ) (title : String)
  /-- `kbModel.BindTrigger(glfw.KeyEscape, ...)` -/
  | bindEscapeTrigger
  /-- `renderer.ChangeResolution(w, h)` (both arguments `int32`) -/
  | changeResolution (w h : ℤ)
  /-- `vr.GetEyeTransforms(near, far)` -/
  | getEyeTransforms (near far : ℚ)
  /-- `fizzlevr.CreateStereoRenderTargets(w, h)` -/
  | createStereoRenderTargets (w h : ℕ)
  /-- `openvr.GetCompositor()` -/
  | getCompositor
  deriving Repr

/-- The mutable data of the program: the `starfield` struct's fields that
change or feed the frame loop, plus the embedded `window`'s `width`/
`height` fields (note: the `starfield` struct declares its OWN `width`/
`height` fields of type `uint32`, which shadow the embedded `window`'s
`int` fields in Go selector resolution). -/
structure State where
  /-- the GLFW window's should-close flag -/
  shouldClose : Bool
  /-- `starfield.width` (`uint32`): recommended render-target width -/
  width : ℕ
  /-- `starfield.height` (`uint32`): recommended render-target height -/
  height : ℕ
  /-- `window.width` (`int`): live window surface width (resize callback) -/
  winWidth : ℤ
  /-- `window.height` (`int`): live window surface height (resize callback) -/
  winHeight : ℤ
  /-- `starfield.hmdPose` -/
  hmdPose : Mat4
  /-- `starfield.hmdLoc` -/
  hmdLoc : Vec3
  /-- `starfield.eyeTransforms` -/
  eyeTransforms : EyeTransforms
  /-- `starfield.eyeLeft` -/
  eyeLeft : EyeFramebuffer
  /-- `starfield.eyeRight` -/
  eyeRight : EyeFramebuffer
  /-- `starfield.renderables` -/
  renderables : List Renderable

/-- A VR runtime event drained by `handleInput` (logged, never mutating). -/
structure VREvent where
  eventType : ℕ
  trackedDeviceIndex : ℕ

/-- The external stimuli one loop iteration can observe: a resize
notification and/or close request delivered by `glfw.PollEvents`, an
escape key press seen by `CheckKeyPresses`, drained VR events, and the
compositor's pose report after `WaitGetPoses`. -/
structure FrameInput where
  resize : Option (ℤ × ℤ)
  externalClose : Bool
  escPressed : Bool
  vrEvents : List VREvent
  poseValid : Bool
  pose : Mat34

/-- Setup, `newStarfield` (main.go lines 52-141): returns the initial
state together with the trace of setup calls.  `hmdPose` and `hmdLoc` are
absent from the Go struct literal, so they carry Go's zero values. -/
def newStarfield (env : Env) (rand : ℕ → ℚ) : State × List InitEvent :=
  let widthHeight := env.recommendedSize
  let width := widthHeight.1
  let height := widthHeight.2
  let eyes := env.createStereoRenderTargets width height
  ({ shouldClose := false,
     width := width,
     height := height,
     winWidth := 1280,
     winHeight := 720,
     hmdPose := mat4Zero,
     hmdLoc := vec3Zero,
     eyeTransforms := env.eyeTransforms,
     eyeLeft := eyes.1,
     eyeRight := eyes.2,
     renderables := genStars rand },
   [InitEvent.newWindow 1280 720 "starfield",
    InitEvent.bindEscapeTrigger,
    InitEvent.changeResolution (width : ℤ) (width : ℤ),
    InitEvent.getEyeTransforms (1 / 10) 30,
    InitEvent.createStereoRenderTargets width height,
    InitEvent.getCompositor])

/-- Session setup helper `deviceProperty` (main.go lines 326-332).  The
body calls `GetStringTrackedDeviceProperty(int(openvr.TrackedDeviceIndexHmd),
openvr.PropTrackingSystemNameString)` — the `device` and `property`
parameters appear only in the error value. -/
def deviceProperty (env : Env) (device property : ℕ) : Except (ℕ × ℕ) String :=
  let vs := env.getStringProp trackedDeviceIndexHmd propTrackingSystemNameString
  if vs.2 ≠ trackedPropSuccess then Except.error (property, device)
  else Except.ok vs.1

/-- Session setup `newVR` (main.go lines 302-324): queries `name` with
`PropTrackingSystemNameString` and `dsn` with `PropSerialNumberString`,
then logs "Connected to name dsn".  Returns the logged pair. -/
def newVR (env : Env) : Except (ℕ × ℕ) (String × String) := do
  let name ← deviceProperty env trackedDeviceIndexHmd propTrackingSystemNameString
  let dsn ← deviceProperty env trackedDeviceIndexHmd propSerialNumberString
  pure (name, dsn)

/-- Input handling (main.go lines 150-168): `glfw.PollEvents` (delivers
resize notifications and external close requests), `CheckKeyPresses`
(escape binding calls `SetShouldClose(true)`), then drains VR events —
the drain only logs, mutating nothing. -/
def handleInput (inp : FrameInput) (s : State) : State :=
  let s1 :=
    match inp.resize with
    | some wh => { s with winWidth := wh.1, winHeight := wh.2 }
    | none => s
  let s2 := { s1 with shouldClose := s1.shouldClose || inp.externalClose }
  if inp.escPressed then { s2 with shouldClose := true } else s2

/-- Scene rendering for one eye, `renderScene` (main.go lines 231-255). -/
def renderScene (s : State) (eye : ℕ) : List Event :=
  let perspective :=
    if eye = eyeLeftConst then s.eyeTransforms.projectionLeft
    else s.eyeTransforms.projectionRight
  let view :=
    if eye = eyeLeftConst then mul4 s.eyeTransforms.positionLeft s.hmdPose
    else mul4 s.eyeTransforms.positionRight s.hmdPose
  let camera : FixedCamera := { view := view, position := s.hmdLoc }
  [Event.clear, Event.enable Cap.depthTest]
    ++ s.renderables.map
        (fun obj => Event.drawRenderable obj none perspective view camera)
    ++ [Event.renderDevices perspective view camera]

/-- Per-eye offscreen rendering, `renderStereoTargets` (main.go lines
198-229), with both eye blocks written out as in the source. -/
def renderStereoTargets (s : State) : List Event :=
  [Event.enable Cap.cullFace,
   Event.clearColor 0.15 0.15 0.18 1]
    ++ ([Event.enable Cap.multisample,
         Event.bindFramebuffer FbTarget.framebuffer s.eyeLeft.renderFramebuffer,
         Event.viewport 0 0 s.width s.height]
        ++ renderScene s eyeLeftConst
        ++ [Event.bindFramebuffer FbTarget.framebuffer 0,
            Event.disable Cap.multisample,
            Event.bindFramebuffer FbTarget.readFramebuffer s.eyeLeft.renderFramebuffer,
            Event.bindFramebuffer FbTarget.drawFramebuffer s.eyeLeft.resolveFramebuffer,
            Event.blitFramebuffer 0 0 s.width s.height 0 0 s.width s.height,
            Event.bindFramebuffer FbTarget.readFramebuffer 0,
            Event.bindFramebuffer FbTarget.drawFramebuffer 0])
    ++ ([Event.enable Cap.multisample,
         Event.bindFramebuffer FbTarget.framebuffer s.eyeRight.renderFramebuffer,
         Event.viewport 0 0 s.width s.height]
        ++ renderScene s eyeRightConst
        ++ [Event.bindFramebuffer FbTarget.framebuffer 0,
            Event.disable Cap.multisample,
            Event.bindFramebuffer FbTarget.readFramebuffer s.eyeRight.renderFramebuffer,
            Event.bindFramebuffer FbTarget.drawFramebuffer s.eyeRight.resolveFramebuffer,
            Event.blitFramebuffer 0 0 s.width s.height 0 0 s.width s.height,
            Event.bindFramebuffer FbTarget.readFramebuffer 0,
            Event.bindFramebuffer FbTarget.drawFramebuffer 0])

/-- One frame, `renderFrame` (main.go lines 170-196): stereo rendering,
distortion pass (note: `a.width`/`a.height` select the `starfield`
struct's own `uint32` fields, the recommended render-target size, which
shadow the embedded `window`'s fields), both compositor submits, buffer
swap, `WaitGetPoses`, then the guarded pose update. -/
def renderFrame (env : Env) (inp : FrameInput) (s : State) : List Event × State :=
  let events :=
    renderStereoTargets s
      ++ [Event.distortionRender s.width s.height,
          Event.submit eyeLeftConst s.eyeLeft.resolveTexture,
          Event.submit eyeRightConst s.eyeRight.resolveTexture,
          Event.swapBuffers,
          Event.waitGetPoses false]
  if inp.poseValid then
    (events,
     { s with
         hmdPose := env.inv (env.mat34ToMat4 inp.pose),
         hmdLoc := ![inp.pose 9, inp.pose 10, inp.pose 11] })
  else
    (events, s)

/-- The main loop, `run` (main.go lines 143-148): the close flag is
checked exactly once per iteration, at the top, before `handleInput` and
`renderFrame`.  The iteration inputs are consumed from a list; the result
carries the full event trace, the final state, and the number of
iterations executed. -/
def run (env : Env) : List FrameInput → State → List Event × State × ℕ
  | inps, s =>
    if s.shouldClose then ([], s, 0)
    else
      match inps with
      | [] => ([], s, 0)
      | inp :: rest =>
        let s1 := handleInput inp s
        let es2 := renderFrame env inp s1
        let rest3 := run env rest es2.2
        (es2.1 ++ rest3.1, rest3.2.1, rest3.2.2 + 1)

/-! ## Helper predicates and abstractions over traces -/

/-- Selects the compositor/swap synchronisation calls of a trace:
`Submit`, `SwapBuffers`, `WaitGetPoses`. -/
def isSync (e : Event) : Bool :=
  match e with
  | Event.submit _ _ => true
  | Event.swapBuffers => true
  | Event.waitGetPoses _ => true
  | _ => false

/-- Selects the distortion-corrector render call of a trace. -/
def isDistortion (e : Event) : Bool :=
  match e with
  | Event.distortionRender _ _ => true
  | _ => false

/-- Extracts the renderable drawn by a `drawRenderable` event. -/
def drawnObj (e : Event) : Option Renderable :=
  match e with
  | Event.drawRenderable obj _ _ _ _ => some obj
  | _ => none

/-- The shape of one `renderScene` pass as a function of exactly the data
that may vary: the renderable list, the camera position, and the
projection/view matrices.  Both eyes' passes are instances of this single
shape. -/
def sceneCalls (renderables : List Renderable) (loc : Vec3)
    (perspective view : Mat4) : List Event :=
  [Event.clear, Event.enable Cap.depthTest]
    ++ renderables.map
        (fun obj =>
          Event.drawRenderable obj none perspective view
            { view := view, position := loc })
    ++ [Event.renderDevices perspective view { view := view, position := loc }]

/-- The shape of one eye's offscreen block in `renderStereoTargets` as a
function of exactly the data that may vary between the two eyes: the eye's
framebuffer handles and the scene pass. -/
def eyeBlock (w h : ℕ) (eyeFb : EyeFramebuffer) (scene : List Event) :
    List Event :=
  [Event.enable Cap.multisample,
   Event.bindFramebuffer FbTarget.framebuffer eyeFb.renderFramebuffer,
   Event.viewport 0 0 w h]
    ++ scene
    ++ [Event.bindFramebuffer FbTarget.framebuffer 0,
        Event.disable Cap.multisample,
        Event.bindFramebuffer FbTarget.readFramebuffer eyeFb.renderFramebuffer,
        Event.bindFramebuffer FbTarget.drawFramebuffer eyeFb.resolveFramebuffer,
        Event.blitFramebuffer 0 0 w h 0 0 w h,
        Event.bindFramebuffer FbTarget.readFramebuffer 0,
        Event.bindFramebuffer FbTarget.drawFramebuffer 0]

/-! ## Concrete instances used to exercise the model -/

/-- A concrete environment: recommended size (1512, 1680) as in the
spec's end-to-end scenario, identity inversion, constant conversions. -/
def cEnv : Env where
  mat34ToMat4 := fun _ => mat4Zero
  inv := fun m => m
  recommendedSize := (1512, 1680)
  eyeTransforms :=
    { projectionLeft := mat4Zero, projectionRight := mat4Zero,
      positionLeft := mat4Zero, positionRight := mat4Zero }
  createStereoRenderTargets := fun _ _ => (⟨1, 2, 3⟩, ⟨4, 5, 6⟩)
  getStringProp := fun _ _ => ("lighthouse", 0)

/-- A concrete random stream, constantly 1/2. -/
def cRand : ℕ → ℚ := fun _ => 1 / 2

/-- The state produced by setup under `cEnv`/`cRand`. -/
def cState : State := (newStarfield cEnv cRand).1

/-- A concrete raw pose matrix. -/
def cPose : Mat34 := fun _ => 7

/-- A frame input whose pose is reported invalid. -/
def cInputInvalid : FrameInput :=
  { resize := none, externalClose := false, escPressed := false,
    vrEvents := [], poseValid := false, pose := cPose }

/-- A frame input whose pose is reported valid. -/
def cInputValid : FrameInput :=
  { resize := none, externalClose := false, escPressed := false,
    vrEvents := [], poseValid := true, pose := cPose }

/-! ## Helper lemmas -/

/-- The event trace of `renderFrame` does not depend on the pose report:
the pose update happens after all calls of the frame were issued. -/
theorem renderFrame_events (env : Env) (inp : FrameInput) (s : State) :
    (renderFrame env inp s).1
      = renderStereoTargets s
          ++ [Event.distortionRender s.width s.height,
              Event.submit eyeLeftConst s.eyeLeft.resolveTexture,
              Event.submit eyeRightConst s.eyeRight.resolveTexture,
              Event.swapBuffers,
              Event.waitGetPoses false] := by
  unfold renderFrame
  split <;> rfl

/-- `renderFrame` never touches the should-close flag. -/
theorem renderFrame_shouldClose (env : Env) (inp : FrameInput) (s : State) :
    (renderFrame env inp s).2.shouldClose = s.shouldClose := by
  unfold renderFrame
  split <;> rfl

/-- `handleInput` never lowers the should-close flag. -/
theorem handleInput_shouldClose_mono (inp : FrameInput) (s : State)
    (h : s.shouldClose = true) : (handleInput inp s).shouldClose = true := by
  unfold handleInput
  cases hr : inp.resize <;> cases he : inp.escPressed <;> simp [h]

/-- `handleInput` never touches the head pose or the head position. -/
theorem handleInput_hmd (inp : FrameInput) (s : State) :
    (handleInput inp s).hmdPose = s.hmdPose ∧
    (handleInput inp s).hmdLoc = s.hmdLoc := by
  unfold handleInput
  cases hr : inp.resize <;> cases he : inp.escPressed <;> simp

/-- An invalid pose report leaves the whole state unchanged. -/
theorem renderFrame_state_of_invalid (env : Env) (inp : FrameInput) (s : State)
    (h : inp.poseValid = false) : (renderFrame env inp s).2 = s := by
  unfold renderFrame
  simp [h]

/-- Unfolding of one non-closing loop iteration: exactly one `handleInput`
and one `renderFrame`, whose events are emitted before the rest. -/
theorem run_cons (env : Env) (inp : FrameInput) (rest : List FrameInput)
    (s : State) (h : s.shouldClose = false) :
    run env (inp :: rest) s
      = ((renderFrame env inp (handleInput inp s)).1
           ++ (run env rest (renderFrame env inp (handleInput inp s)).2).1,
         (run env rest (renderFrame env inp (handleInput inp s)).2).2.1,
         (run env rest (renderFrame env inp (handleInput inp s)).2).2.2 + 1) := by
  conv_lhs => rw [run]
  simp [h]

/-- As long as every pose report is invalid, the loop never changes the
head pose or the head position. -/
theorem run_hmd_invariant (env : Env) :
    ∀ inps : List FrameInput, (∀ inp ∈ inps, inp.poseValid = false) →
    ∀ s : State,
      (run env inps s).2.1.hmdPose = s.hmdPose ∧
      (run env inps s).2.1.hmdLoc = s.hmdLoc := by
  intro inps
  induction inps with
  | nil =>
    intro _ s
    cases h : s.shouldClose <;> simp [run, h]
  | cons inp rest ih =>
    intro hinv s
    cases h : s.shouldClose with
    | true => simp [run, h]
    | false =>
      have hhead : inp.poseValid = false := hinv inp (by simp)
      have htail : ∀ i ∈ rest, i.poseValid = false := by
        intro i hi
        exact hinv i (by simp [hi])
      have hstate : (renderFrame env inp (handleInput inp s)).2
          = handleInput inp s :=
        renderFrame_state_of_invalid env inp (handleInput inp s) hhead
      have hh := handleInput_hmd inp s
      have hrest := ih htail (handleInput inp s)
      rw [run_cons env inp rest s h, hstate]
      exact ⟨hrest.1.trans hh.1, hrest.2.trans hh.2⟩

/-- A scene pass issues no compositor/swap synchronisation calls. -/
theorem isSync_renderScene (s : State) (eye : ℕ) :
    (renderScene s eye).filter isSync = [] := by
  simp [renderScene, List.filter_append, List.filter_map, Function.comp, isSync]

/-- The offscreen stereo pass issues no compositor/swap synchronisation
calls. -/
theorem isSync_renderStereoTargets (s : State) :
    (renderStereoTargets s).filter isSync = [] := by
  simp [renderStereoTargets, List.filter_append, isSync_renderScene, isSync]

/-- Drawing a mapped renderable list and projecting the drawn objects back
out recovers the list. -/
theorem filterMap_drawnObj_map (l : List Renderable) (b : Option ℕ)
    (p v : Mat4) (c : FixedCamera) :
    (l.map fun obj => Event.drawRenderable obj b p v c).filterMap drawnObj
      = l := by
  induction l with
  | nil => rfl
  | cons a t ih => simp [ih, drawnObj]

/-- A scene pass draws exactly the given renderable list, in order. -/
theorem sceneCalls_drawn (renderables : List Renderable) (loc : Vec3)
    (perspective view : Mat4) :
    (sceneCalls renderables loc perspective view).filterMap drawnObj
      = renderables := by
  unfold sceneCalls
  rw [List.filterMap_append, List.filterMap_append, filterMap_drawnObj_map]
  simp [drawnObj]

/-- A scene pass issues no distortion-corrector render call. -/
theorem isDistortion_renderScene (s : State) (eye : ℕ) :
    (renderScene s eye).filter isDistortion = [] := by
  simp [renderScene, List.filter_append, List.filter_map, Function.comp,
    isDistortion]

/-- The offscreen stereo pass issues no distortion-corrector render call. -/
theorem isDistortion_renderStereoTargets (s : State) :
    (renderStereoTargets s).filter isDistortion = [] := by
  simp [renderStereoTargets, List.filter_append, isDistortion_renderScene,
    isDistortion]

/-- Each frame contains a single distortion-corrector render call, and its
size arguments are the frame driver's own `width`/`height` fields. -/
theorem renderFrame_distortion (env : Env) (inp : FrameInput) (s : State) :
    (renderFrame env inp s).1.filter isDistortion
      = [Event.distortionRender s.width s.height] := by
  rw [renderFrame_events]
  simp [List.filter_append, isDistortion_renderStereoTargets, isDistortion]

/-! ## Claim theorems -/

/-- C1: when the compositor reports the HMD pose invalid, `renderFrame`
leaves both `hmdPose` and `hmdLoc` exactly equal to their previous-frame
values (indeed the whole state is unchanged); they are overwritten — the
pose through the library's inversion of the converted device-to-world
transform, the position re-derived from the raw pose — only when the pose
is reported valid. -/
theorem renderFrame_pose_staleness (env : Env) (inp : FrameInput) (s : State) :
    (inp.poseValid = false →
      (renderFrame env inp s).2.hmdPose = s.hmdPose ∧
      (renderFrame env inp s).2.hmdLoc = s.hmdLoc ∧
      (renderFrame env inp s).2 = s) ∧
    (inp.poseValid = true →
      (renderFrame env inp s).2.hmdPose = env.inv (env.mat34ToMat4 inp.pose) ∧
      (renderFrame env inp s).2.hmdLoc = ![inp.pose 9, inp.pose 10, inp.pose 11]) := by
  constructor <;> intro h <;> unfold renderFrame <;> simp [h]

/-- Witness for C1 at a concrete environment, state and both kinds of pose
report. -/
theorem renderFrame_pose_staleness_witness :
    (cInputInvalid.poseValid = false ∧
      (renderFrame cEnv cInputInvalid cState).2.hmdPose = cState.hmdPose ∧
      (renderFrame cEnv cInputInvalid cState).2.hmdLoc = cState.hmdLoc) ∧
    (cInputValid.poseValid = true ∧
      (renderFrame cEnv cInputValid cState).2.hmdPose
        = cEnv.inv (cEnv.mat34ToMat4 cInputValid.pose)) := by
  have h1 := (renderFrame_pose_staleness cEnv cInputInvalid cState).1 rfl
  have h2 := (renderFrame_pose_staleness cEnv cInputValid cState).2 rfl
  exact ⟨⟨rfl, h1.1, h1.2.1⟩, ⟨rfl, h2.1⟩⟩

/-- C4: `deviceProperty` queries the tracking-system-name string property
of the HMD device whatever `device` and `property` were passed: whenever
that one query succeeds with value `val`, every call returns `val`; in
particular `newVR` logs `(name, dsn) = (val, val)`, so the value logged as
the serial number is the tracking-system-name value. -/
theorem deviceProperty_ignores_params (env : Env) (device property : ℕ)
    (val : String)
    (h : env.getStringProp trackedDeviceIndexHmd propTrackingSystemNameString
          = (val, trackedPropSuccess)) :
    deviceProperty env device property = Except.ok val ∧
    newVR env = Except.ok (val, val) := by
  constructor
  · simp [deviceProperty, h]
  · simp [newVR, deviceProperty, h, Bind.bind, Except.bind, Pure.pure, Except.pure]

/-- Witness for C4: under `cEnv` the query succeeds with "lighthouse", and
a call with the serial-number property id still returns it. -/
theorem deviceProperty_ignores_params_witness :
    cEnv.getStringProp trackedDeviceIndexHmd propTrackingSystemNameString
        = ("lighthouse", trackedPropSuccess) ∧
    deviceProperty cEnv trackedDeviceIndexHmd propSerialNumberString
        = Except.ok "lighthouse" ∧
    newVR cEnv = Except.ok ("lighthouse", "lighthouse") := by
  have h := deviceProperty_ignores_params cEnv trackedDeviceIndexHmd
    propSerialNumberString "lighthouse" rfl
  exact ⟨rfl, h.1, h.2⟩

/-- C5: for every sample stream within `rand.Float64`'s contract `[0, 1)`,
setup generates exactly 1000 stars and every star's coordinates lie in
`[-5, 5]` (in fact in `[-5, 5)`). -/
theorem genStars_bounds (rand : ℕ → ℚ)
    (h : ∀ k, 0 ≤ rand k ∧ rand k < 1) :
    (genStars rand).length = 1000 ∧
    ∀ r ∈ genStars rand,
      (-5 ≤ r.location 0 ∧ r.location 0 ≤ 5) ∧
      (-5 ≤ r.location 1 ∧ r.location 1 ≤ 5) ∧
      (-5 ≤ r.location 2 ∧ r.location 2 ≤ 5) := by
  constructor
  · simp [genStars]
  · intro r hr
    simp only [genStars, List.mem_map, List.mem_range] at hr
    obtain ⟨i, _, rfl⟩ := hr
    have hx := h (3 * i)
    have hy := h (3 * i + 1)
    have hz := h (3 * i + 2)
    simp only [Matrix.cons_val_zero, Matrix.cons_val_one, Matrix.head_cons,
      Matrix.cons_val_two, Matrix.tail_cons]
    refine ⟨⟨?_, ?_⟩, ⟨?_, ?_⟩, ⟨?_, ?_⟩⟩ <;>
      linarith [hx.1, hx.2, hy.1, hy.2, hz.1, hz.2]

/-- Witness for C5 at the constant stream 1/2. -/
theorem genStars_bounds_witness :
    (∀ k, 0 ≤ cRand k ∧ cRand k < 1) ∧
    (genStars cRand).length = 1000 ∧
    (∀ r ∈ genStars cRand,
      (-5 ≤ r.location 0 ∧ r.location 0 ≤ 5) ∧
      (-5 ≤ r.location 1 ∧ r.location 1 ≤ 5) ∧
      (-5 ≤ r.location 2 ∧ r.location 2 ≤ 5)) := by
  have h : ∀ k, 0 ≤ cRand k ∧ cRand k < 1 := by
    intro k
    constructor <;> norm_num [cRand]
  have hb := genStars_bounds cRand h
  exact ⟨h, hb.1, hb.2⟩

/-- C6: the stereo eye render targets are created with exactly the width
and height reported by the recommended-render-target-size query — that
call appears in the setup trace with those arguments, every such call in
the trace has those arguments, and the stored state records the same
unmodified values and the targets so created. -/
theorem stereoTargets_size_exact (env : Env) (rand : ℕ → ℚ) :
    InitEvent.createStereoRenderTargets env.recommendedSize.1 env.recommendedSize.2
        ∈ (newStarfield env rand).2 ∧
    (∀ w h, InitEvent.createStereoRenderTargets w h ∈ (newStarfield env rand).2 →
        w = env.recommendedSize.1 ∧ h = env.recommendedSize.2) ∧
    (newStarfield env rand).1.width = env.recommendedSize.1 ∧
    (newStarfield env rand).1.height = env.recommendedSize.2 ∧
    (newStarfield env rand).1.eyeLeft
        = (env.createStereoRenderTargets env.recommendedSize.1 env.recommendedSize.2).1 ∧
    (newStarfield env rand).1.eyeRight
        = (env.createStereoRenderTargets env.recommendedSize.1 env.recommendedSize.2).2 := by
  refine ⟨?_, ?_, rfl, rfl, rfl, rfl⟩
  · simp [newStarfield]
  · intro w h hmem
    simp only [newStarfield, List.mem_cons, List.not_mem_nil, or_false] at hmem
    rcases hmem with h1 | h1 | h1 | h1 | h1 | h1 <;> simp_all

/-- Witness for C6 under the concrete environment with recommended size
(1512, 1680). -/
theorem stereoTargets_size_exact_witness :
    InitEvent.createStereoRenderTargets 1512 1680 ∈ (newStarfield cEnv cRand).2 ∧
    (newStarfield cEnv cRand).1.width = 1512 ∧
    (newStarfield cEnv cRand).1.height = 1680 := by
  have h := stereoTargets_size_exact cEnv cRand
  exact ⟨h.1, h.2.2.1, h.2.2.2.1⟩

/-- C9: setup calls `ChangeResolution` with the recommended WIDTH passed
for both dimensions, so the forward renderer's configured height equals
the recommended width, not the recommended height. -/
theorem changeResolution_width_twice (env : Env) (rand : ℕ → ℚ) :
    InitEvent.changeResolution (env.recommendedSize.1 : ℤ) (env.recommendedSize.1 : ℤ)
        ∈ (newStarfield env rand).2 ∧
    (∀ w h, InitEvent.changeResolution w h ∈ (newStarfield env rand).2 →
        w = (env.recommendedSize.1 : ℤ) ∧ h = (env.recommendedSize.1 : ℤ)) := by
  constructor
  · simp [newStarfield]
  · intro w h hmem
    simp only [newStarfield, List.mem_cons, List.not_mem_nil, or_false] at hmem
    rcases hmem with h1 | h1 | h1 | h1 | h1 | h1 <;> simp_all

/-- Witness for C9: with recommended size (1512, 1680) the renderer is
configured as 1512 x 1512. -/
theorem changeResolution_width_twice_witness :
    InitEvent.changeResolution 1512 1512 ∈ (newStarfield cEnv cRand).2 ∧
    InitEvent.changeResolution 1512 1512
        ≠ InitEvent.changeResolution 1512 1680 := by
  refine ⟨(changeResolution_width_twice cEnv cRand).1, by simp⟩

/-- C8: the driver never lowers the should-close flag — one full loop
iteration (input handling then frame rendering) maps a set flag to a set
flag for every possible input — and `run`, which tests the flag exactly
once per iteration before input handling and rendering, exits immediately
(zero further iterations, no further events, state untouched) once the
flag is observed true. -/
theorem close_flag_terminates (env : Env) (inp : FrameInput)
    (inps : List FrameInput) (s : State) :
    (s.shouldClose = true →
      (renderFrame env inp (handleInput inp s)).2.shouldClose = true) ∧
    (s.shouldClose = true → run env inps s = ([], s, 0)) := by
  constructor
  · intro h
    rw [renderFrame_shouldClose]
    exact handleInput_shouldClose_mono inp s h
  · intro h
    cases inps <;> simp [run, h]

/-- Witness for C8 on a concrete closed state. -/
theorem close_flag_terminates_witness :
    ({ cState with shouldClose := true } : State).shouldClose = true ∧
    run cEnv [cInputInvalid] { cState with shouldClose := true }
      = ([], { cState with shouldClose := true }, 0) := by
  have h := (close_flag_terminates cEnv cInputInvalid [cInputInvalid]
    { cState with shouldClose := true }).2 rfl
  exact ⟨rfl, h⟩

/-- C2: the synchronisation calls of every frame are exactly — and in this
order — the left eye's submit, the right eye's submit, the buffer swap and
one `WaitGetPoses`; and a non-closing loop iteration executes exactly one
`renderFrame`, so this holds once per iteration. -/
theorem frame_submit_wait_order (env : Env) (inp : FrameInput)
    (rest : List FrameInput) (s : State) :
    (renderFrame env inp s).1.filter isSync
        = [Event.submit eyeLeftConst s.eyeLeft.resolveTexture,
           Event.submit eyeRightConst s.eyeRight.resolveTexture,
           Event.swapBuffers,
           Event.waitGetPoses false] ∧
    (s.shouldClose = false →
      run env (inp :: rest) s
        = ((renderFrame env inp (handleInput inp s)).1
             ++ (run env rest (renderFrame env inp (handleInput inp s)).2).1,
           (run env rest (renderFrame env inp (handleInput inp s)).2).2.1,
           (run env rest (renderFrame env inp (handleInput inp s)).2).2.2 + 1)) := by
  constructor
  · rw [renderFrame_events]
    simp [List.filter_append, isSync_renderStereoTargets, isSync]
  · exact run_cons env inp rest s

/-- Witness for C2 at the concrete setup state. -/
theorem frame_submit_wait_order_witness :
    cState.shouldClose = false ∧
    (renderFrame cEnv cInputInvalid cState).1.filter isSync
        = [Event.submit eyeLeftConst cState.eyeLeft.resolveTexture,
           Event.submit eyeRightConst cState.eyeRight.resolveTexture,
           Event.swapBuffers,
           Event.waitGetPoses false] ∧
    run cEnv [cInputInvalid] cState
      = ((renderFrame cEnv cInputInvalid (handleInput cInputInvalid cState)).1
           ++ (run cEnv [] (renderFrame cEnv cInputInvalid
                 (handleInput cInputInvalid cState)).2).1,
         (run cEnv [] (renderFrame cEnv cInputInvalid
             (handleInput cInputInvalid cState)).2).2.1,
         (run cEnv [] (renderFrame cEnv cInputInvalid
             (handleInput cInputInvalid cState)).2).2.2 + 1) := by
  have h := frame_submit_wait_order cEnv cInputInvalid [] cState
  exact ⟨rfl, h.1, h.2 rfl⟩

/-- C3 counterexample: under a runtime reporting recommended size
(1512, 1680) and the initial 1280 x 720 window, the frame's single
distortion-corrector call is parameterized by 1512 x 1680 — the stored
recommended render-target size — and not by the window's current
1280 x 720 surface size, refuting the claim that its size parameters are
the live window size. -/
theorem distortion_window_size_cex :
    (renderFrame cEnv cInputInvalid cState).1.filter isDistortion
        = [Event.distortionRender 1512 1680] ∧
    cState.winWidth = 1280 ∧
    cState.winHeight = 720 ∧
    Event.distortionRender 1512 1680 ≠ Event.distortionRender 1280 720 := by
  refine ⟨?_, rfl, rfl, by simp⟩
  have h := renderFrame_distortion cEnv cInputInvalid cState
  exact h

/-- C3 (amended): in every frame the distortion-corrector render into the
window's default framebuffer is a single call, but its two size parameters
are the frame driver's stored recommended render-target width and height
(`starfield.width`/`starfield.height`, which shadow the embedded window's
fields in Go selector resolution), not the live window surface size. -/
theorem distortion_single_call_target_size (env : Env) (inp : FrameInput)
    (s : State) (rand : ℕ → ℚ) :
    (renderFrame env inp s).1.filter isDistortion
        = [Event.distortionRender s.width s.height] ∧
    (newStarfield env rand).1.width = env.recommendedSize.1 ∧
    (newStarfield env rand).1.height = env.recommendedSize.2 :=
  ⟨renderFrame_distortion env inp s, rfl, rfl⟩

/-- C7: both eyes' scene passes are instances of one call shape
(`sceneCalls`) differing only in the projection matrix and the view
matrix (the eye's offset composed with the current head pose); each pass
draws exactly the driver's renderable list in order (with the `nil`
per-draw override recorded in the shape) and ends in the one device-render
call; and the two offscreen eye blocks are instances of one block shape
(`eyeBlock`) differing additionally only in the eye's framebuffer
handles. -/
theorem eye_symmetry (s : State) :
    renderScene s eyeLeftConst
      = sceneCalls s.renderables s.hmdLoc s.eyeTransforms.projectionLeft
          (mul4 s.eyeTransforms.positionLeft s.hmdPose) ∧
    renderScene s eyeRightConst
      = sceneCalls s.renderables s.hmdLoc s.eyeTransforms.projectionRight
          (mul4 s.eyeTransforms.positionRight s.hmdPose) ∧
    renderStereoTargets s
      = [Event.enable Cap.cullFace, Event.clearColor 0.15 0.15 0.18 1]
          ++ eyeBlock s.width s.height s.eyeLeft (renderScene s eyeLeftConst)
          ++ eyeBlock s.width s.height s.eyeRight (renderScene s eyeRightConst) ∧
    (renderScene s eyeLeftConst).filterMap drawnObj = s.renderables ∧
    (renderScene s eyeRightConst).filterMap drawnObj = s.renderables := by
  have h1 : renderScene s eyeLeftConst
      = sceneCalls s.renderables s.hmdLoc s.eyeTransforms.projectionLeft
          (mul4 s.eyeTransforms.positionLeft s.hmdPose) := by
    simp [renderScene, sceneCalls, eyeLeftConst]
  have h2 : renderScene s eyeRightConst
      = sceneCalls s.renderables s.hmdLoc s.eyeTransforms.projectionRight
          (mul4 s.eyeTransforms.positionRight s.hmdPose) := by
    simp [renderScene, sceneCalls, eyeRightConst, eyeLeftConst]
  refine ⟨h1, h2, ?_, ?_, ?_⟩
  · simp [renderStereoTargets, eyeBlock]
  · rw [h1]
    exact sceneCalls_drawn _ _ _ _
  · rw [h2]
    exact sceneCalls_drawn _ _ _ _

/-- C10: setup leaves the head pose as the all-zero matrix (Go's zero
value, not identity) and the head position as the zero vector; they remain
so through every frame whose pose report is invalid; and every scene pass
of such a state renders with view = eye-offset x zero-matrix. -/
theorem zero_pose_until_first_valid (env : Env) (rand : ℕ → ℚ)
    (inps : List FrameInput)
    (hinv : ∀ inp ∈ inps, inp.poseValid = false) :
    (newStarfield env rand).1.hmdPose = mat4Zero ∧
    (newStarfield env rand).1.hmdLoc = vec3Zero ∧
    (run env inps (newStarfield env rand).1).2.1.hmdPose = mat4Zero ∧
    (run env inps (newStarfield env rand).1).2.1.hmdLoc = vec3Zero ∧
    (∀ s : State, s.hmdPose = mat4Zero →
      renderScene s eyeLeftConst
        = sceneCalls s.renderables s.hmdLoc s.eyeTransforms.projectionLeft
            (mul4 s.eyeTransforms.positionLeft mat4Zero) ∧
      renderScene s eyeRightConst
        = sceneCalls s.renderables s.hmdLoc s.eyeTransforms.projectionRight
            (mul4 s.eyeTransforms.positionRight mat4Zero)) := by
  have hrun := run_hmd_invariant env inps hinv (newStarfield env rand).1
  refine ⟨rfl, rfl, ?_, ?_, ?_⟩
  · rw [hrun.1]
    rfl
  · rw [hrun.2]
    rfl
  · intro s hs
    constructor
    · rw [← hs]
      simp [renderScene, sceneCalls, eyeLeftConst]
    · rw [← hs]
      simp [renderScene, sceneCalls, eyeRightConst, eyeLeftConst]

/-- Witness for C10: one invalid-pose frame from the concrete setup
state. -/
theorem zero_pose_until_first_valid_witness :
    (∀ inp ∈ [cInputInvalid], inp.poseValid = false) ∧
    (newStarfield cEnv cRand).1.hmdPose = mat4Zero ∧
    (run cEnv [cInputInvalid] (newStarfield cEnv cRand).1).2.1.hmdPose
        = mat4Zero ∧
    (run cEnv [cInputInvalid] (newStarfield cEnv cRand).1).2.1.hmdLoc
        = vec3Zero := by
  have hin : ∀ inp ∈ [cInputInvalid], inp.poseValid = false := by
    intro inp hmem
    simp only [List.mem_singleton] at hmem
    rw [hmem]
    rfl
  have h := zero_pose_until_first_valid cEnv cRand [cInputInvalid] hin
  exact ⟨hin, h.1, h.2.2.1, h.2.2.2.1⟩

end Starfield
